import Mathlib

/-
Verification of the anne-key keyboard firmware core: the STM32L151 USB
endpoint-register bit transforms (src/usb/usb_ext.rs) and the LED link
controller (src/led.rs).

Conventions of the shallow embedding:
* Machine integers are `Nat`; `u32` bitwise NOT is `not32` (complement
  within 32 bits), and overflow cannot occur in the modelled code paths
  (all operations are `&&&`, `|||`, `^^^` of 32-bit-bounded values).
* Each register method of `UsbExt` performs a single read-modify-write on
  its endpoint register; it is embedded as the pure function from the
  value read (`c`) to the value written.
* The hardware's write semantics for the endpoint register (toggle-on-
  write-1 status and data-toggle bits, write-0-clears interrupt flags)
  are embedded as `applyWrite`.
-/

/-- u32 bitwise complement: Rust `!x` on a `u32`, for `x < 2^32`. -/
def not32 (x : Nat) : Nat := 0xFFFFFFFF ^^^ x

/-- From usb_ext.rs: `(1 << 15 | 1 << 11 | 1 << 10 | 1 << 9 | 1 << 8 | 0xf)`.
The comment above it in the source lists
`USB_EP_CTR_RX|USB_EP_SETUP|USB_EP_T_FIELD|USB_EP_KIND|USB_EP_CTR_TX|USB_EPADDR_FIELD`,
but the value written omits bit 7 (`USB_EP_CTR_TX` = `1 << 7` on this MCU). -/
def USB_EPREG_MASK : Nat := (1 <<< 15) ||| (1 <<< 11) ||| (1 <<< 10) ||| (1 <<< 9) ||| (1 <<< 8) ||| 0xf

/-- From usb_ext.rs. -/
def USB_EPTX_STAT : Nat := 0x30

/-- From usb_ext.rs. -/
def USB_EPTX_DTOGMASK : Nat := USB_EPTX_STAT ||| USB_EPREG_MASK

/-- From usb_ext.rs. -/
def USB_EPRX_STAT : Nat := 0x3000

/-- From usb_ext.rs. -/
def USB_EPRX_DTOGMASK : Nat := USB_EPRX_STAT ||| USB_EPREG_MASK

/-- From usb_ext.rs. -/
def USB_EP_CTR_RX : Nat := 0x8000

/-- From usb_ext.rs: `0x8000_0000` (bit 31), not `0x80` (bit 7, the actual
CTR_TX position of the STM32L151 endpoint register). -/
def USB_EP_CTR_TX : Nat := 0x80000000

/-- usb_ext.rs `clear_tx_ep_ctr`: value written to `usb_ep0r` as a function
of the value read. -/
def clear_tx_ep_ctr (c : Nat) : Nat := (c &&& 0xFF7F) &&& USB_EPREG_MASK

/-- usb_ext.rs `clear_rx_ep_ctr`. -/
def clear_rx_ep_ctr (c : Nat) : Nat := (c &&& 0x7FFF) &&& USB_EPREG_MASK

/-- usb_ext.rs `clear_tx_ep1_ctr` (same transform on `usb_ep1r`). -/
def clear_tx_ep1_ctr (c : Nat) : Nat := (c &&& 0xFF7F) &&& USB_EPREG_MASK

/-- usb_ext.rs `clear_rx_ep1_ctr` (same transform on `usb_ep1r`). -/
def clear_rx_ep1_ctr (c : Nat) : Nat := (c &&& 0x7FFF) &&& USB_EPREG_MASK

/-- usb_ext.rs `set_ep_tx_status_valid`. -/
def set_ep_tx_status_valid (c : Nat) : Nat :=
  let bb := c &&& USB_EPTX_DTOGMASK
  let bb := if bb &&& 0x10 = 0 then bb ||| 0x10 else bb &&& not32 0x10
  let bb := if bb &&& 0x20 = 0 then bb ||| 0x20 else bb &&& not32 0x20
  bb ||| USB_EP_CTR_RX ||| USB_EP_CTR_TX

/-- usb_ext.rs `set_ep_tx_status_valid_dtog`. -/
def set_ep_tx_status_valid_dtog (c : Nat) : Nat :=
  let bb := c &&& USB_EPTX_DTOGMASK
  let bb := if bb &&& 0x10 = 0 then bb ||| 0x10 else bb &&& not32 0x10
  let bb := if bb &&& 0x20 = 0 then bb ||| 0x20 else bb &&& not32 0x20
  let bb := bb ||| 0x1000
  bb ||| USB_EP_CTR_RX ||| USB_EP_CTR_TX

/-- usb_ext.rs `set_ep_rx_status_valid` (note the unconditional
`bb &= !0x1000` after the two toggle steps). -/
def set_ep_rx_status_valid (c : Nat) : Nat :=
  let bb := c &&& USB_EPRX_DTOGMASK
  let bb := if bb &&& 0x1000 = 0 then bb ||| 0x1000 else bb &&& not32 0x1000
  let bb := if bb &&& 0x2000 = 0 then bb ||| 0x2000 else bb &&& not32 0x2000
  let bb := bb &&& not32 0x1000
  bb ||| USB_EP_CTR_RX ||| USB_EP_CTR_TX

/-- usb_ext.rs `set_ep_rx_status_valid_dtog` (note the unconditional
`bb |= 0x1000` after the two toggle steps). -/
def set_ep_rx_status_valid_dtog (c : Nat) : Nat :=
  let bb := c &&& USB_EPRX_DTOGMASK
  let bb := if bb &&& 0x1000 = 0 then bb ||| 0x1000 else bb &&& not32 0x1000
  let bb := if bb &&& 0x2000 = 0 then bb ||| 0x2000 else bb &&& not32 0x2000
  let bb := bb ||| 0x1000
  bb ||| USB_EP_CTR_RX ||| USB_EP_CTR_TX

/-- usb_ext.rs `set_ep1_tx_status_valid_dtog` (same transform as
`set_ep_tx_status_valid_dtog`, on `usb_ep1r`). -/
def set_ep1_tx_status_valid_dtog (c : Nat) : Nat :=
  let bb := c &&& USB_EPTX_DTOGMASK
  let bb := if bb &&& 0x10 = 0 then bb ||| 0x10 else bb &&& not32 0x10
  let bb := if bb &&& 0x20 = 0 then bb ||| 0x20 else bb &&& not32 0x20
  let bb := bb ||| 0x1000
  bb ||| USB_EP_CTR_RX ||| USB_EP_CTR_TX

/-- Modelled from the spec: the STM32L151 endpoint-register write semantics
(spec section 3, "Endpoint Control Register", and the glossary).  Given the
current register content `c` and a written value `w`, the new content is:
read-write bits 0-3 (address), 8 (EP_KIND) and 9-10 (EP_TYPE) take `w`;
toggle bits 4-5 (STAT_TX), 6 (DTOG_TX), 12-13 (STAT_RX) and 14 (DTOG_RX)
flip where `w` is 1; flags 7 (CTR_TX) and 15 (CTR_RX) clear where `w` is 0
and are unchanged where `w` is 1; bit 11 (SETUP) is read-only.  Only the
low 16 bits exist in hardware. -/
def applyWrite (c w : Nat) : Nat :=
  (w &&& 0x070F) ||| ((c ^^^ w) &&& 0x7070) ||| (c &&& w &&& 0x8080) ||| (c &&& 0x0800)

/-- The source's toggle idiom `if (bb & m) == 0 { bb |= m } else { bb &= !m }`
flips the single bit `m = 2^k`, i.e. equals `bb ^^^ m`, for 32-bit values. -/
theorem flip_pow (a m k : Nat) (hm : m = 2 ^ k) (ha : a < 2 ^ 32) (hk : k < 32) :
    (if a &&& m = 0 then a ||| m else a &&& not32 m) = a ^^^ m := by
  have hmask : (0xFFFFFFFF : Nat) = 2 ^ 32 - 1 := rfl
  subst hm
  by_cases h : a &&& 2 ^ k = 0
  · have hbit : a.testBit k = false := by
      have := congrArg (fun x => x.testBit k) h
      simpa [Nat.testBit_two_pow] using this
    rw [if_pos h]
    apply Nat.eq_of_testBit_eq
    intro i
    simp only [Nat.testBit_or, Nat.testBit_xor, Nat.testBit_two_pow]
    by_cases hik : k = i
    · subst hik; simp [hbit]
    · simp [hik]
  · have hbit : a.testBit k = true := by
      by_cases hb : a.testBit k
      · exact hb
      · exfalso; apply h
        apply Nat.eq_of_testBit_eq
        intro i
        simp only [Nat.testBit_and, Nat.testBit_two_pow, Nat.zero_testBit]
        by_cases hik : k = i
        · subst hik; simp [hb]
        · simp [hik]
    rw [if_neg h]
    apply Nat.eq_of_testBit_eq
    intro i
    simp only [not32, hmask, Nat.testBit_and, Nat.testBit_xor, Nat.testBit_two_pow,
      Nat.testBit_two_pow_sub_one]
    by_cases hik : k = i
    · subst hik; simp [hbit, hk]
    · by_cases hi32 : i < 32
      · simp [hik, hi32]
      · have hf : a.testBit i = false := Nat.testBit_lt_two_pow
          (lt_of_lt_of_le ha (Nat.pow_le_pow_right (by norm_num) (by omega)))
        simp [hik, hf, hi32]

/-- Closed form of `set_ep_tx_status_valid`. -/
theorem set_ep_tx_status_valid_eq (c : Nat) :
    set_ep_tx_status_valid c = ((c &&& 0x8F3F) ^^^ 0x30) ||| 0x80008000 := by
  simp only [set_ep_tx_status_valid]
  rw [show USB_EPTX_DTOGMASK = 0x8F3F from rfl]
  have h1 : c &&& 0x8F3F < 2 ^ 32 := lt_of_le_of_lt Nat.and_le_right (by norm_num)
  rw [flip_pow (c &&& 0x8F3F) 0x10 4 (by norm_num) h1 (by norm_num)]
  have h2 : (c &&& 0x8F3F) ^^^ 0x10 < 2 ^ 32 := Nat.xor_lt_two_pow h1 (by norm_num)
  rw [flip_pow ((c &&& 0x8F3F) ^^^ 0x10) 0x20 5 (by norm_num) h2 (by norm_num)]
  rw [Nat.xor_assoc, show ((0x10 : Nat) ^^^ 0x20) = 0x30 from rfl]
  rw [show USB_EP_CTR_RX = 0x8000 from rfl, show USB_EP_CTR_TX = 0x80000000 from rfl]
  rw [Nat.or_assoc, show ((0x8000 : Nat) ||| 0x80000000) = 0x80008000 from rfl]

/-- Closed form of `set_ep_tx_status_valid_dtog`. -/
theorem set_ep_tx_status_valid_dtog_eq (c : Nat) :
    set_ep_tx_status_valid_dtog c = (((c &&& 0x8F3F) ^^^ 0x30) ||| 0x1000) ||| 0x80008000 := by
  simp only [set_ep_tx_status_valid_dtog]
  rw [show USB_EPTX_DTOGMASK = 0x8F3F from rfl]
  have h1 : c &&& 0x8F3F < 2 ^ 32 := lt_of_le_of_lt Nat.and_le_right (by norm_num)
  rw [flip_pow (c &&& 0x8F3F) 0x10 4 (by norm_num) h1 (by norm_num)]
  have h2 : (c &&& 0x8F3F) ^^^ 0x10 < 2 ^ 32 := Nat.xor_lt_two_pow h1 (by norm_num)
  rw [flip_pow ((c &&& 0x8F3F) ^^^ 0x10) 0x20 5 (by norm_num) h2 (by norm_num)]
  rw [Nat.xor_assoc, show ((0x10 : Nat) ^^^ 0x20) = 0x30 from rfl]
  rw [show USB_EP_CTR_RX = 0x8000 from rfl, show USB_EP_CTR_TX = 0x80000000 from rfl]
  rw [Nat.or_assoc (((c &&& 0x8F3F) ^^^ 0x30) ||| 0x1000),
    show ((0x8000 : Nat) ||| 0x80000000) = 0x80008000 from rfl]

/-- Closed form of `set_ep1_tx_status_valid_dtog`: identical transform to
`set_ep_tx_status_valid_dtog`. -/
theorem set_ep1_tx_status_valid_dtog_eq (c : Nat) :
    set_ep1_tx_status_valid_dtog c = set_ep_tx_status_valid_dtog c := rfl

/-- Closed form of `set_ep_rx_status_valid`. -/
theorem set_ep_rx_status_valid_eq (c : Nat) :
    set_ep_rx_status_valid c = (((c &&& 0xBF0F) ^^^ 0x3000) &&& 0xFFFFEFFF) ||| 0x80008000 := by
  simp only [set_ep_rx_status_valid]
  rw [show USB_EPRX_DTOGMASK = 0xBF0F from rfl]
  have h1 : c &&& 0xBF0F < 2 ^ 32 := lt_of_le_of_lt Nat.and_le_right (by norm_num)
  rw [flip_pow (c &&& 0xBF0F) 0x1000 12 (by norm_num) h1 (by norm_num)]
  have h2 : (c &&& 0xBF0F) ^^^ 0x1000 < 2 ^ 32 := Nat.xor_lt_two_pow h1 (by norm_num)
  rw [flip_pow ((c &&& 0xBF0F) ^^^ 0x1000) 0x2000 13 (by norm_num) h2 (by norm_num)]
  rw [Nat.xor_assoc, show ((0x1000 : Nat) ^^^ 0x2000) = 0x3000 from rfl]
  rw [show not32 0x1000 = 0xFFFFEFFF from rfl]
  rw [show USB_EP_CTR_RX = 0x8000 from rfl, show USB_EP_CTR_TX = 0x80000000 from rfl]
  rw [Nat.or_assoc, show ((0x8000 : Nat) ||| 0x80000000) = 0x80008000 from rfl]

/-- Closed form of `set_ep_rx_status_valid_dtog`. -/
theorem set_ep_rx_status_valid_dtog_eq (c : Nat) :
    set_ep_rx_status_valid_dtog c = (((c &&& 0xBF0F) ^^^ 0x3000) ||| 0x1000) ||| 0x80008000 := by
  simp only [set_ep_rx_status_valid_dtog]
  rw [show USB_EPRX_DTOGMASK = 0xBF0F from rfl]
  have h1 : c &&& 0xBF0F < 2 ^ 32 := lt_of_le_of_lt Nat.and_le_right (by norm_num)
  rw [flip_pow (c &&& 0xBF0F) 0x1000 12 (by norm_num) h1 (by norm_num)]
  have h2 : (c &&& 0xBF0F) ^^^ 0x1000 < 2 ^ 32 := Nat.xor_lt_two_pow h1 (by norm_num)
  rw [flip_pow ((c &&& 0xBF0F) ^^^ 0x1000) 0x2000 13 (by norm_num) h2 (by norm_num)]
  rw [Nat.xor_assoc, show ((0x1000 : Nat) ^^^ 0x2000) = 0x3000 from rfl]
  rw [show USB_EP_CTR_RX = 0x8000 from rfl, show USB_EP_CTR_TX = 0x80000000 from rfl]
  rw [Nat.or_assoc (((c &&& 0xBF0F) ^^^ 0x3000) ||| 0x1000),
    show ((0x8000 : Nat) ||| 0x80000000) = 0x80008000 from rfl]

/-- A status-setting write drives the TX status field to Valid for every
current value: plain variant. -/
theorem applyWrite_tx_valid (c : Nat) :
    applyWrite c (set_ep_tx_status_valid c) &&& 0x30 = 0x30 := by
  rw [set_ep_tx_status_valid_eq]
  unfold applyWrite
  apply Nat.eq_of_testBit_eq
  intro i
  simp only [Nat.testBit_or, Nat.testBit_and, Nat.testBit_xor]
  generalize c.testBit i = x
  by_cases hi : i < 32
  · interval_cases i <;> cases x <;> decide
  · have hc : ∀ K : Nat, K < 2 ^ 32 → K.testBit i = false := fun K hK =>
      Nat.testBit_lt_two_pow (lt_of_lt_of_le hK (Nat.pow_le_pow_right (by norm_num) (by omega)))
    rw [hc 0x070F (by norm_num), hc 0x7070 (by norm_num), hc 0x8080 (by norm_num),
      hc 0x0800 (by norm_num), hc 0x8F3F (by norm_num), hc 0x30 (by norm_num),
      hc 0x80008000 (by norm_num)]
    cases x <;> decide

/-- A status-setting write drives the TX status field to Valid for every
current value: dtog variant. -/
theorem applyWrite_tx_valid_dtog (c : Nat) :
    applyWrite c (set_ep_tx_status_valid_dtog c) &&& 0x30 = 0x30 := by
  rw [set_ep_tx_status_valid_dtog_eq]
  unfold applyWrite
  apply Nat.eq_of_testBit_eq
  intro i
  simp only [Nat.testBit_or, Nat.testBit_and, Nat.testBit_xor]
  generalize c.testBit i = x
  by_cases hi : i < 32
  · interval_cases i <;> cases x <;> decide
  · have hc : ∀ K : Nat, K < 2 ^ 32 → K.testBit i = false := fun K hK =>
      Nat.testBit_lt_two_pow (lt_of_lt_of_le hK (Nat.pow_le_pow_right (by norm_num) (by omega)))
    rw [hc 0x070F (by norm_num), hc 0x7070 (by norm_num), hc 0x8080 (by norm_num),
      hc 0x0800 (by norm_num), hc 0x8F3F (by norm_num), hc 0x30 (by norm_num),
      hc 0x1000 (by norm_num), hc 0x80008000 (by norm_num)]
    cases x <;> decide

/-- The RX status field after `set_ep_rx_status_valid`: bit 13 is forced to 1
and bit 12 is left unchanged, so the field is Valid only when bit 12 of the
current value was already set (else it lands on Nak). -/
theorem applyWrite_rx_valid (c : Nat) :
    applyWrite c (set_ep_rx_status_valid c) &&& 0x3000
      = (if c.testBit 12 then 0x3000 else 0x2000) := by
  rw [set_ep_rx_status_valid_eq]
  unfold applyWrite
  by_cases h12 : c.testBit 12 = true
  · rw [if_pos h12]
    apply Nat.eq_of_testBit_eq
    intro i
    simp only [Nat.testBit_or, Nat.testBit_and, Nat.testBit_xor]
    by_cases hi12 : i = 12
    · subst hi12; simp only [h12]; decide
    · generalize c.testBit i = x
      by_cases hi : i < 32
      · interval_cases i <;> first | exact absurd rfl hi12 | (cases x <;> decide)
      · have hc : ∀ K : Nat, K < 2 ^ 32 → K.testBit i = false := fun K hK =>
          Nat.testBit_lt_two_pow (lt_of_lt_of_le hK (Nat.pow_le_pow_right (by norm_num) (by omega)))
        simp only [hc 0x070F (by norm_num), hc 0x7070 (by norm_num), hc 0x8080 (by norm_num),
          hc 0x0800 (by norm_num), hc 0xBF0F (by norm_num), hc 0x3000 (by norm_num),
          hc 0x2000 (by norm_num), hc 0xFFFFEFFF (by norm_num), hc 0x80008000 (by norm_num)]
        cases x <;> decide
  · have h12f : c.testBit 12 = false := by simpa using h12
    rw [if_neg h12]
    apply Nat.eq_of_testBit_eq
    intro i
    simp only [Nat.testBit_or, Nat.testBit_and, Nat.testBit_xor]
    by_cases hi12 : i = 12
    · subst hi12; simp only [h12f]; decide
    · generalize c.testBit i = x
      by_cases hi : i < 32
      · interval_cases i <;> first | exact absurd rfl hi12 | (cases x <;> decide)
      · have hc : ∀ K : Nat, K < 2 ^ 32 → K.testBit i = false := fun K hK =>
          Nat.testBit_lt_two_pow (lt_of_lt_of_le hK (Nat.pow_le_pow_right (by norm_num) (by omega)))
        simp only [hc 0x070F (by norm_num), hc 0x7070 (by norm_num), hc 0x8080 (by norm_num),
          hc 0x0800 (by norm_num), hc 0xBF0F (by norm_num), hc 0x3000 (by norm_num),
          hc 0x2000 (by norm_num), hc 0xFFFFEFFF (by norm_num), hc 0x80008000 (by norm_num)]
        cases x <;> decide

/-- The RX status field after `set_ep_rx_status_valid_dtog`: bit 13 is forced
to 1 and bit 12 is flipped, so the field is Valid only when bit 12 of the
current value was clear (else it lands on Nak). -/
theorem applyWrite_rx_valid_dtog (c : Nat) :
    applyWrite c (set_ep_rx_status_valid_dtog c) &&& 0x3000
      = (if c.testBit 12 then 0x2000 else 0x3000) := by
  rw [set_ep_rx_status_valid_dtog_eq]
  unfold applyWrite
  by_cases h12 : c.testBit 12 = true
  · rw [if_pos h12]
    apply Nat.eq_of_testBit_eq
    intro i
    simp only [Nat.testBit_or, Nat.testBit_and, Nat.testBit_xor]
    by_cases hi12 : i = 12
    · subst hi12; simp only [h12]; decide
    · generalize c.testBit i = x
      by_cases hi : i < 32
      · interval_cases i <;> first | exact absurd rfl hi12 | (cases x <;> decide)
      · have hc : ∀ K : Nat, K < 2 ^ 32 → K.testBit i = false := fun K hK =>
          Nat.testBit_lt_two_pow (lt_of_lt_of_le hK (Nat.pow_le_pow_right (by norm_num) (by omega)))
        simp only [hc 0x070F (by norm_num), hc 0x7070 (by norm_num), hc 0x8080 (by norm_num),
          hc 0x0800 (by norm_num), hc 0xBF0F (by norm_num), hc 0x3000 (by norm_num),
          hc 0x2000 (by norm_num), hc 0x1000 (by norm_num), hc 0x80008000 (by norm_num)]
        cases x <;> decide
  · have h12f : c.testBit 12 = false := by simpa using h12
    rw [if_neg h12]
    apply Nat.eq_of_testBit_eq
    intro i
    simp only [Nat.testBit_or, Nat.testBit_and, Nat.testBit_xor]
    by_cases hi12 : i = 12
    · subst hi12; simp only [h12f]; decide
    · generalize c.testBit i = x
      by_cases hi : i < 32
      · interval_cases i <;> first | exact absurd rfl hi12 | (cases x <;> decide)
      · have hc : ∀ K : Nat, K < 2 ^ 32 → K.testBit i = false := fun K hK =>
          Nat.testBit_lt_two_pow (lt_of_lt_of_le hK (Nat.pow_le_pow_right (by norm_num) (by omega)))
        simp only [hc 0x070F (by norm_num), hc 0x7070 (by norm_num), hc 0x8080 (by norm_num),
          hc 0x0800 (by norm_num), hc 0xBF0F (by norm_num), hc 0x3000 (by norm_num),
          hc 0x2000 (by norm_num), hc 0x1000 (by norm_num), hc 0x80008000 (by norm_num)]
        cases x <;> decide

/-- C1 counterexample: at current register value 0, the write computed by
`set_ep_rx_status_valid` leaves the RX status field (bits 12-13) at Nak
(0b10), not Valid (0b11), under the hardware toggle-on-write-1 semantics. -/
theorem rx_status_write_not_valid_at_zero :
    ¬ (applyWrite 0 (set_ep_rx_status_valid 0) &&& 0x3000 = 0x3000) := by decide

/-- C1 (amended): the TX status-setting writes (plain and dtog) drive the
TX status field to Valid (0b11) for every current register value; the RX
status-setting writes force bit 13 to 1 but `set_ep_rx_status_valid` leaves
bit 12 unchanged and `set_ep_rx_status_valid_dtog` flips bit 12, so each
reaches Valid only for half of the current values and Nak (0b10) for the
other half. -/
theorem status_valid_write_fields (c : Nat) :
    applyWrite c (set_ep_tx_status_valid c) &&& 0x30 = 0x30 ∧
    applyWrite c (set_ep_tx_status_valid_dtog c) &&& 0x30 = 0x30 ∧
    applyWrite c (set_ep_rx_status_valid c) &&& 0x3000
      = (if c.testBit 12 then 0x3000 else 0x2000) ∧
    applyWrite c (set_ep_rx_status_valid_dtog c) &&& 0x3000
      = (if c.testBit 12 then 0x2000 else 0x3000) :=
  ⟨applyWrite_tx_valid c, applyWrite_tx_valid_dtog c,
    applyWrite_rx_valid c, applyWrite_rx_valid_dtog c⟩

/-- C2 (code bug): at current value 0x80 (CTR_TX set), every status-setting
write value has a 0 at bit 7 — `USB_EPREG_MASK` omits bit 7 and the OR-ed
`USB_EP_CTR_TX` constant is bit 31, not bit 7 — so the write clears CTR_TX
under the write-0-clears semantics, while CTR_RX (bit 15) is indeed written
as 1. -/
theorem status_writes_clear_ctr_tx_at_0x80 :
    (set_ep_tx_status_valid 0x80).testBit 7 = false ∧
    (set_ep_tx_status_valid_dtog 0x80).testBit 7 = false ∧
    (set_ep_rx_status_valid 0x80).testBit 7 = false ∧
    (set_ep_rx_status_valid_dtog 0x80).testBit 7 = false ∧
    (set_ep1_tx_status_valid_dtog 0x80).testBit 7 = false ∧
    applyWrite 0x80 (set_ep_tx_status_valid 0x80) &&& 0x80 = 0 ∧
    (set_ep_tx_status_valid 0x80).testBit 15 = true ∧
    (set_ep_tx_status_valid 0x80).testBit 31 = true := by decide

/-- C3 (code bug): at current value 0x8080 (both CTR flags set), the write
computed by `clear_rx_ep_ctr` is 0x0000, which clears CTR_TX (bit 7) as
well as the intended CTR_RX — `USB_EPREG_MASK` omits bit 7 — whereas the
TX-variant write at the same value preserves CTR_RX as its claim states. -/
theorem clear_rx_ep_ctr_also_clears_ctr_tx_at_0x8080 :
    clear_rx_ep_ctr 0x8080 = 0 ∧
    applyWrite 0x8080 (clear_rx_ep_ctr 0x8080) &&& 0x80 = 0 ∧
    clear_rx_ep1_ctr 0x8080 = 0 ∧
    applyWrite 0x8080 (clear_tx_ep_ctr 0x8080) = 0x8000 := by decide

/-- In the dtog variants the extra OR-ed bit is 0x1000, not the DTOG_TX bit
0x40: TX pair. -/
theorem tx_dtog_eq_or_bit12 (c : Nat) :
    set_ep_tx_status_valid_dtog c = set_ep_tx_status_valid c ||| 0x1000 := by
  rw [set_ep_tx_status_valid_dtog_eq, set_ep_tx_status_valid_eq]
  apply Nat.eq_of_testBit_eq
  intro i
  simp only [Nat.testBit_or]
  generalize ((c &&& 0x8F3F) ^^^ 0x30).testBit i = x
  by_cases hi : i < 32
  · interval_cases i <;> cases x <;> decide
  · have hc : ∀ K : Nat, K < 2 ^ 32 → K.testBit i = false := fun K hK =>
      Nat.testBit_lt_two_pow (lt_of_lt_of_le hK (Nat.pow_le_pow_right (by norm_num) (by omega)))
    rw [hc 0x1000 (by norm_num), hc 0x80008000 (by norm_num)]

/-- In the dtog variants the extra OR-ed bit is 0x1000, not the DTOG_RX bit
0x4000: RX pair. -/
theorem rx_dtog_eq_or_bit12 (c : Nat) :
    set_ep_rx_status_valid_dtog c = set_ep_rx_status_valid c ||| 0x1000 := by
  rw [set_ep_rx_status_valid_dtog_eq, set_ep_rx_status_valid_eq]
  apply Nat.eq_of_testBit_eq
  intro i
  simp only [Nat.testBit_or, Nat.testBit_and]
  by_cases hi : i < 32
  · generalize ((c &&& 0xBF0F) ^^^ 0x3000).testBit i = x
    interval_cases i <;> cases x <;> decide
  · have hb : (c &&& 0xBF0F) ^^^ 0x3000 < 2 ^ 32 :=
      Nat.xor_lt_two_pow (Nat.and_lt_two_pow c (by norm_num)) (by norm_num)
    have hX : ((c &&& 0xBF0F) ^^^ 0x3000).testBit i = false :=
      Nat.testBit_lt_two_pow (lt_of_lt_of_le hb (Nat.pow_le_pow_right (by norm_num) (by omega)))
    have hc : ∀ K : Nat, K < 2 ^ 32 → K.testBit i = false := fun K hK =>
      Nat.testBit_lt_two_pow (lt_of_lt_of_le hK (Nat.pow_le_pow_right (by norm_num) (by omega)))
    simp only [hX, hc 0x1000 (by norm_num), hc 0xFFFFEFFF (by norm_num),
      hc 0x80008000 (by norm_num)]
    decide

/-- The TX dtog variant never writes 1 to the DTOG_TX bit (bit 6). -/
theorem tx_dtog_bit6_false (c : Nat) :
    (set_ep_tx_status_valid_dtog c).testBit 6 = false := by
  rw [set_ep_tx_status_valid_dtog_eq]
  simp only [Nat.testBit_or, Nat.testBit_and, Nat.testBit_xor]
  simp [show Nat.testBit 0x8F3F 6 = false from by decide,
    show Nat.testBit 0x30 6 = false from by decide,
    show Nat.testBit 0x1000 6 = false from by decide,
    show Nat.testBit 0x80008000 6 = false from by decide]

/-- The RX dtog variant never writes 1 to the DTOG_RX bit (bit 14). -/
theorem rx_dtog_bit14_false (c : Nat) :
    (set_ep_rx_status_valid_dtog c).testBit 14 = false := by
  rw [set_ep_rx_status_valid_dtog_eq]
  simp only [Nat.testBit_or, Nat.testBit_and, Nat.testBit_xor]
  simp [show Nat.testBit 0xBF0F 14 = false from by decide,
    show Nat.testBit 0x3000 14 = false from by decide,
    show Nat.testBit 0x1000 14 = false from by decide,
    show Nat.testBit 0x80008000 14 = false from by decide]

/-- C4 counterexample: at current value 0, the TX dtog write differs from the
plain write OR-ed with the DTOG_TX set-pattern 0x40, and the RX dtog write
does not set the DTOG_RX bit (bit 14). -/
theorem dtog_write_differs_from_dtog_bit_at_zero :
    set_ep_tx_status_valid_dtog 0 ≠ set_ep_tx_status_valid 0 ||| 0x40 ∧
    (set_ep_rx_status_valid_dtog 0).testBit 14 = false := by decide

/-- C4 (amended): each dtog variant equals its plain counterpart OR-ed with
0x1000 — bit 12, the low STAT_RX bit — not with the data-toggle bit (DTOG_TX
0x40 or DTOG_RX 0x4000); the data-toggle bit positions of the dtog write
values are always 0. -/
theorem dtog_write_adds_bit12 (c : Nat) :
    set_ep_tx_status_valid_dtog c = set_ep_tx_status_valid c ||| 0x1000 ∧
    set_ep_rx_status_valid_dtog c = set_ep_rx_status_valid c ||| 0x1000 ∧
    (set_ep_tx_status_valid_dtog c).testBit 6 = false ∧
    (set_ep_rx_status_valid_dtog c).testBit 14 = false :=
  ⟨tx_dtog_eq_or_bit12 c, rx_dtog_eq_or_bit12 c,
    tx_dtog_bit6_false c, rx_dtog_bit14_false c⟩

/-
LED controller (src/led.rs).  The serial link, its Transfer handles, the
protocol enums and the key-index codes live in modules that are not part of
the analysed sources (serial.rs, protocol.rs, keycodes.rs, keymatrix.rs,
bluetooth.rs); they are modelled from the spec where needed and kept
abstract where the claims do not depend on them.
-/

/-- Receive buffers are byte sequences. -/
abbrev Buffer := List Nat

/-- Modelled from the spec (section 3, "Transfer"): a transfer is InFlight
while the DMA engine owns the buffer, Idle otherwise. -/
inductive TransferState
  | InFlight
  | Idle
deriving DecidableEq

/-- Modelled from the spec (section 3, "Transfer"): an in-flight,
buffer-oriented data movement; `serial.rs` is not among the sources. -/
structure Transfer where
  buffer : Buffer
  state : TransferState
deriving DecidableEq

/-- Modelled from the spec (section 4.2): `finish` reclaims ownership of the
completed buffer. -/
def Transfer.finish (t : Transfer) : Buffer := t.buffer

/-- Modelled from the spec: the enumerated channel identifier; only the Led
channel is used by this component (`protocol.rs` is not among the sources). -/
inductive MsgType
  | Led
deriving DecidableEq

/-- Modelled from the spec (section 3): the per-channel opcode enumeration
of `protocol.rs`; the numeric `as u8` codes are unknown, so outgoing frames
carry the enum value itself. -/
inductive LedOp
  | ConfigCmd
  | ThemeMode
  | Key
  | Music
  | GetThemeId
  | SetIndividualKeys
  | AckThemeMode
  | AckConfigCmd
  | AckSetIndividualKeys
deriving DecidableEq

/-- One recorded `serial.send` call: channel, opcode, payload. -/
structure SentFrame where
  msgType : MsgType
  operation : LedOp
  payload : List Nat
deriving DecidableEq

/-- Modelled from the spec (section 4.2): the Link Transport.  The claims
about led.rs only observe which `send` calls it receives, so the model
records them in order. -/
structure Serial where
  sent : List SentFrame
deriving DecidableEq

/-- Modelled from the spec (section 4.2): `send` encodes and enqueues one
frame and is fire-and-forget from the controller's point of view. -/
def Serial.send (s : Serial) (msgType : MsgType) (operation : LedOp)
    (data : List Nat) : Serial :=
  { sent := s.sent ++ [⟨msgType, operation, data⟩] }

/-- Modelled from the spec (section 4.2): `receive` arms a receive into the
given buffer and returns the in-flight transfer handle. -/
def Serial.receive (_s : Serial) (buffer : Buffer) : Transfer :=
  { buffer := buffer, state := TransferState.InFlight }

/-- led.rs `Message` (protocol.rs itself is absent): `msg_type` is kept as
the raw byte that `MsgType::from` is applied to. -/
structure Message where
  msg_type : Nat
  operation : Nat
  data : List Nat
deriving DecidableEq

/-- led.rs `enum LedMode { _Off, On, Flash }`. -/
inductive LedMode
  | _Off
  | On
  | Flash
deriving DecidableEq

/-- Rust discriminants of `LedMode` (`as u8`): declaration order from 0. -/
def LedMode.toNat : LedMode → Nat
  | LedMode._Off => 0
  | LedMode.On => 1
  | LedMode.Flash => 2

/-- Modelled from the spec (section 6): the Bluetooth-mode enumeration
supplied by a separate subsystem (`bluetooth.rs` is not among the sources). -/
inductive BluetoothMode
  | Unknown
  | Ble
  | Legacy
deriving DecidableEq

/-- Modelled from the spec (section 6): the numeric `as u8` codes of the ten
`KeyIndex` entries used by `bluetooth_mode` (`keycodes.rs` is not among the
sources); every claim below holds for arbitrary codes. -/
structure KeyIndexCodes where
  escape : Nat
  n1 : Nat
  n2 : Nat
  n3 : Nat
  n4 : Nat
  equal : Nat
  b : Nat
  minus : Nat
  n0 : Nat
  a : Nat
deriving DecidableEq

/-- Modelled from the spec (section 6): the key-state bitmap consumed by
`send_keys` (`keymatrix.rs` is not among the sources). -/
def KeyState := List Bool

/-- led.rs `struct Led`: the serial link, the optional armed receive
transfer, the indicator pin (true = high) and the toggle-mode flag. -/
structure Led where
  serial : Serial
  rx_transfer : Option Transfer
  pc15 : Bool
  state : Bool
deriving DecidableEq

/-- led.rs `Led::new`: arms a receive into `rx_buffer`, stores it as
`Some`, drives the indicator pin as a pulled-up output, clears the flag.
The input pin argument carries no modelled state. -/
def Led.new (serial : Serial) (rx_buffer : Buffer) (_pc15_input : Bool) : Led :=
  let rx_transfer := serial.receive rx_buffer
  { serial := serial, rx_transfer := some rx_transfer, pc15 := true, state := false }

/-- led.rs `Led::on`. -/
def Led.on (led : Led) : Led := { led with pc15 := true }

/-- led.rs `Led::off`. -/
def Led.off (led : Led) : Led := { led with pc15 := false }

/-- led.rs `Led::theme_mode`: `send(MsgType::Led, LedOp::ThemeMode, &[])`. -/
def Led.theme_mode (led : Led) : Led :=
  { led with serial := led.serial.send MsgType.Led LedOp.ThemeMode [] }

/-- led.rs `Led::set_theme`: `send(MsgType::Led, LedOp::ThemeMode, &[theme])`. -/
def Led.set_theme (led : Led) (theme : Nat) : Led :=
  { led with serial := led.serial.send MsgType.Led LedOp.ThemeMode [theme] }

/-- led.rs `Led::toggle`: sends `theme_mode` when the flag is clear, else
`set_theme(0)`, then flips the flag unconditionally. -/
def Led.toggle (led : Led) : Led :=
  let led1 := if !led.state then led.theme_mode else led.set_theme 0
  { led1 with state := !led1.state }

/-- led.rs `Led::next_theme`. -/
def Led.next_theme (led : Led) : Led :=
  { led with serial := led.serial.send MsgType.Led LedOp.ConfigCmd [1, 0, 0] }

/-- led.rs `Led::next_brightness`. -/
def Led.next_brightness (led : Led) : Led :=
  { led with serial := led.serial.send MsgType.Led LedOp.ConfigCmd [0, 0, 1] }

/-- led.rs `Led::next_animation_speed`. -/
def Led.next_animation_speed (led : Led) : Led :=
  { led with serial := led.serial.send MsgType.Led LedOp.ConfigCmd [0, 1, 0] }

/-- led.rs `Led::send_keys`: packs the key state with `to_packed_bits`
(from the absent keymatrix.rs, passed here as a parameter) and sends it
under opcode `Key`. -/
def Led.send_keys (to_packed_bits : KeyState → List Nat) (led : Led)
    (keyState : KeyState) : Led :=
  { led with serial := led.serial.send MsgType.Led LedOp.Key (to_packed_bits keyState) }

/-- led.rs `Led::send_music`. -/
def Led.send_music (led : Led) (keys : List Nat) : Led :=
  { led with serial := led.serial.send MsgType.Led LedOp.Music keys }

/-- led.rs `Led::get_theme_id`. -/
def Led.get_theme_id (led : Led) : Led :=
  { led with serial := led.serial.send MsgType.Led LedOp.GetThemeId [] }

/-- led.rs `Led::set_keys`. -/
def Led.set_keys (led : Led) (payload : List Nat) : Led :=
  { led with serial := led.serial.send MsgType.Led LedOp.SetIndividualKeys payload }

/-- led.rs `Led::bluetooth_mode`: the per-mode color triple for the
connection-status record. -/
def mode_color : BluetoothMode → Nat × Nat × Nat
  | BluetoothMode.Unknown => (0x00, 0x00, 0xff)
  | BluetoothMode.Ble => (0x00, 0xff, 0x00)
  | BluetoothMode.Legacy => (0xff, 0xff, 0x00)

/-- led.rs `Led::bluetooth_mode`: the fixed-layout payload — magic byte
0xCA, count byte 0x0A, then ten records of (keyIndex, red, green, blue,
ledMode); only the `KeyIndex::N0` record's colors depend on the mode. -/
def bluetooth_mode_payload (ki : KeyIndexCodes) (mode : BluetoothMode) : List Nat :=
  let mc := mode_color mode
  [0xca, 0x0a,
   ki.escape, 0xff, 0xff, 0x00, LedMode.On.toNat,
   ki.n1, 0xff, 0x00, 0x00, LedMode.Flash.toNat,
   ki.n2, 0xff, 0x00, 0x00, LedMode.On.toNat,
   ki.n3, 0xff, 0x00, 0x00, LedMode.On.toNat,
   ki.n4, 0xff, 0x00, 0x00, LedMode.On.toNat,
   ki.equal, 0x00, 0xff, 0x00, LedMode.On.toNat,
   ki.b, 0x00, 0xff, 0x00, LedMode.Flash.toNat,
   ki.minus, 0x00, 0xff, 0x00, LedMode.On.toNat,
   ki.n0, mc.1, mc.2.1, mc.2.2, LedMode.On.toNat,
   ki.a, 0x00, 0xff, 0x00, LedMode.On.toNat]

/-- led.rs `Led::bluetooth_mode`: dispatches the payload via `set_keys`. -/
def Led.bluetooth_mode (led : Led) (ki : KeyIndexCodes) (mode : BluetoothMode) : Led :=
  led.set_keys (bluetooth_mode_payload ki mode)

/-- led.rs `Led::handle_message`: every arm of the match only performs
(disabled) diagnostic logging; no controller state is read or written. -/
def Led.handle_message (led : Led) (_message : Message) : Led := led

/-- led.rs `Led::poll`, completed branch, lines 178-182: the `Message`
constructed from a completed receive buffer, with Rust panic semantics as
`none` — indexing `buffer[0]` / `buffer[2]` out of bounds, or the slice
`&buffer[3..3 + buffer[1] as usize - 1]` having an inverted or
out-of-range bound, panics. -/
def decodeMessage (buffer : List Nat) : Option Message :=
  match buffer[0]?, buffer[2]? with
  | some b0, some b2 =>
    let len := buffer[1]?.getD 0
    let hi := 3 + len - 1
    if 3 ≤ hi ∧ hi ≤ buffer.length then
      some { msg_type := b0, operation := b2, data := (buffer.drop 3).take (hi - 3) }
    else none
  | _, _ => none

/-- led.rs `Led::poll`.  `completed` is the outcome of the hardware poll on
the in-flight transfer (false = `Err(WouldBlock)`, true = `Ok(())`); the
result is `none` when the Rust code would panic (`unwrap` on `None`, or an
out-of-bounds frame decode). -/
def Led.poll (led : Led) (completed : Bool) : Option Led :=
  match led.rx_transfer with
  | none => none
  | some t =>
    match completed with
    | false => some led
    | true =>
      let buffer := t.finish
      match decodeMessage buffer with
      | none => none
      | some message =>
        let led1 := led.handle_message message
        some { led1 with rx_transfer := some (led1.serial.receive buffer) }

/-- C5: `Led::new` stores an armed (InFlight) receive transfer as `Some`;
`poll` never returns with the transfer gone — its WouldBlock branch leaves
the controller untouched and its completed branch re-arms before storing —
and every other public operation leaves `rx_transfer` unchanged. -/
theorem led_rx_transfer_always_armed
    (serial : Serial) (buf : Buffer) (pin : Bool)
    (led led1 led2 : Led) (msg : Message) (theme : Nat)
    (keys payload : List Nat) (to_packed_bits : KeyState → List Nat)
    (keyState : KeyState) (ki : KeyIndexCodes) (mode : BluetoothMode) :
    (Led.new serial buf pin).rx_transfer = some (serial.receive buf) ∧
    (led.poll false = some led1 → led1 = led ∧ led1.rx_transfer.isSome = true) ∧
    (led.poll true = some led2 →
      led2.rx_transfer.map Transfer.state = some TransferState.InFlight) ∧
    (led.toggle).rx_transfer = led.rx_transfer ∧
    (led.next_theme).rx_transfer = led.rx_transfer ∧
    (led.next_brightness).rx_transfer = led.rx_transfer ∧
    (led.next_animation_speed).rx_transfer = led.rx_transfer ∧
    (led.set_theme theme).rx_transfer = led.rx_transfer ∧
    (Led.send_keys to_packed_bits led keyState).rx_transfer = led.rx_transfer ∧
    (led.send_music keys).rx_transfer = led.rx_transfer ∧
    (led.get_theme_id).rx_transfer = led.rx_transfer ∧
    (led.set_keys payload).rx_transfer = led.rx_transfer ∧
    (led.theme_mode).rx_transfer = led.rx_transfer ∧
    (led.bluetooth_mode ki mode).rx_transfer = led.rx_transfer ∧
    (led.handle_message msg).rx_transfer = led.rx_transfer := by
  refine ⟨rfl, ?_, ?_, ?_, rfl, rfl, rfl, rfl, rfl, rfl, rfl, rfl, rfl, rfl, rfl⟩
  · intro h
    cases hrx : led.rx_transfer with
    | none => simp [Led.poll, hrx] at h
    | some t =>
      simp only [Led.poll, hrx, Option.some.injEq] at h
      subst h
      exact ⟨rfl, by simp [hrx]⟩
  · intro h
    cases hrx : led.rx_transfer with
    | none => simp [Led.poll, hrx] at h
    | some t =>
      simp only [Led.poll, hrx] at h
      cases hd : decodeMessage t.finish with
      | none => simp [hd] at h
      | some m =>
        simp only [hd, Option.some.injEq] at h
        subst h
        rfl
  · show (Led.toggle led).rx_transfer = led.rx_transfer
    by_cases hs : led.state <;>
      simp [Led.toggle, Led.theme_mode, Led.set_theme, hs]

/-- A concrete controller holding an armed receive transfer over the frame
`[1, 2, 3, 4]` (a valid one-payload-byte frame). -/
def led0 : Led :=
  { serial := ⟨[]⟩,
    rx_transfer := some ⟨[1, 2, 3, 4], TransferState.InFlight⟩,
    pc15 := true,
    state := false }

/-- Witness for C5 at the concrete controller `led0`: both poll branches
return, and the returned controller still holds an armed transfer. -/
theorem led_rx_transfer_always_armed_witness :
    led0.rx_transfer.isSome = true ∧
    led0.rx_transfer.map Transfer.state = some TransferState.InFlight :=
  ⟨((led_rx_transfer_always_armed ⟨[]⟩ [1, 2, 3, 4] true led0 led0 led0
      ⟨0, 0, []⟩ 0 [] [] (fun _ => []) [] ⟨0, 0, 0, 0, 0, 0, 0, 0, 0, 0⟩
      BluetoothMode.Ble).2.1 (by decide)).2,
   (led_rx_transfer_always_armed ⟨[]⟩ [1, 2, 3, 4] true led0 led0 led0
      ⟨0, 0, []⟩ 0 [] [] (fun _ => []) [] ⟨0, 0, 0, 0, 0, 0, 0, 0, 0, 0⟩
      BluetoothMode.Ble).2.2.1 (by decide)⟩

/-- C6: a successfully decoded message takes its `msg_type` from byte 0,
its `operation` from byte 2, and its `data` is the slice of the buffer
starting at index 3 whose length is the length byte (byte 1) minus 1. -/
theorem poll_message_decode_layout (buffer : List Nat) (msg : Message)
    (h : decodeMessage buffer = some msg) :
    msg.msg_type = buffer[0]?.getD 0 ∧
    msg.operation = buffer[2]?.getD 0 ∧
    msg.data = (buffer.drop 3).take (buffer[1]?.getD 0 - 1) ∧
    msg.data.length = buffer[1]?.getD 0 - 1 := by
  match buffer with
  | [] => simp [decodeMessage] at h
  | [b0] => simp [decodeMessage] at h
  | [b0, b1] => simp [decodeMessage] at h
  | b0 :: b1 :: b2 :: rest =>
    simp only [decodeMessage, List.getElem?_cons_zero, List.getElem?_cons_succ,
      Option.getD_some] at h
    split_ifs at h with hcond
    · have hmsg : msg = ⟨b0, b2, ((b0 :: b1 :: b2 :: rest).drop 3).take (3 + b1 - 1 - 3)⟩ :=
        (Option.some.inj h).symm
      subst hmsg
      refine ⟨by simp, by simp, ?_, ?_⟩
      · simp only [List.getElem?_cons_zero, List.getElem?_cons_succ, Option.getD_some]
        have h31 : 3 + b1 - 1 - 3 = b1 - 1 := by omega
        rw [h31]
      · simp only [List.getElem?_cons_zero, List.getElem?_cons_succ, Option.getD_some,
          List.drop_succ_cons, List.drop_zero, List.length_take]
        simp only [List.length_cons] at hcond
        omega

/-- Witness for C6 at the frame `[5, 2, 7, 9]`, which decodes to message
type 5, operation 7, data `[9]`. -/
theorem poll_message_decode_layout_witness :
    (Message.mk 5 7 [9]).msg_type = ([5, 2, 7, 9] : List Nat)[0]?.getD 0 ∧
    (Message.mk 5 7 [9]).operation = ([5, 2, 7, 9] : List Nat)[2]?.getD 0 ∧
    (Message.mk 5 7 [9]).data
      = (([5, 2, 7, 9] : List Nat).drop 3).take (([5, 2, 7, 9] : List Nat)[1]?.getD 0 - 1) ∧
    (Message.mk 5 7 [9]).data.length = ([5, 2, 7, 9] : List Nat)[1]?.getD 0 - 1 :=
  poll_message_decode_layout [5, 2, 7, 9] ⟨5, 7, [9]⟩ (by decide)

/-- C7: the decode of a received buffer is panic-free exactly when the
header length byte satisfies `1 ≤ buffer[1]` and
`3 + buffer[1] - 1 ≤ buffer.length`; in particular a zero length byte
produces an inverted slice range and an oversized one runs past the
buffer, since `poll` performs no validation. -/
theorem decode_in_bounds_iff_header_length (buffer : List Nat) :
    (decodeMessage buffer).isSome = true ↔
      (1 ≤ buffer[1]?.getD 0 ∧ 3 + buffer[1]?.getD 0 - 1 ≤ buffer.length) := by
  match buffer with
  | [] => simp [decodeMessage]
  | [b0] => simp [decodeMessage]
  | [b0, b1] =>
    simp only [decodeMessage, List.getElem?_cons_zero, List.getElem?_cons_succ,
      List.getElem?_nil, Option.getD_some, List.length_cons, List.length_nil]
    simp
    omega
  | b0 :: b1 :: b2 :: rest =>
    simp only [decodeMessage, List.getElem?_cons_zero, List.getElem?_cons_succ,
      Option.getD_some, List.length_cons]
    split_ifs with hcond
    · simp only [Option.isSome_some, true_iff]
      omega
    · simp only [Option.isSome_none, Bool.false_eq_true, false_iff]
      omega

/-- C8: `Led::new` starts with the flag clear; `toggle` flips the flag
unconditionally on every call, emitting the empty-payload ThemeMode frame
(`theme_mode`) when the flag was clear and the ThemeMode frame with payload
`[0]` (`set_theme(0)`) when it was set, so the two behaviours alternate
indefinitely. -/
theorem toggle_state_machine_alternates
    (serial : Serial) (buf : Buffer) (pin : Bool) (led : Led) :
    (Led.new serial buf pin).state = false ∧
    (led.toggle).state = (!led.state) ∧
    (led.state = false → (led.toggle).serial.sent
      = led.serial.sent ++ [⟨MsgType.Led, LedOp.ThemeMode, []⟩]) ∧
    (led.state = true → (led.toggle).serial.sent
      = led.serial.sent ++ [⟨MsgType.Led, LedOp.ThemeMode, [0]⟩]) := by
  refine ⟨rfl, ?_, ?_, ?_⟩
  · by_cases hs : led.state <;>
      simp [Led.toggle, Led.theme_mode, Led.set_theme, hs]
  · intro hs
    simp [Led.toggle, Led.theme_mode, Serial.send, hs]
  · intro hs
    simp [Led.toggle, Led.set_theme, Serial.send, hs]

/-- A concrete controller with the toggle flag set, used as the second
witness input for C8. -/
def led0flag : Led :=
  { serial := ⟨[]⟩,
    rx_transfer := some ⟨[1, 2, 3, 4], TransferState.InFlight⟩,
    pc15 := true,
    state := true }

/-- Witness for C8: from the flag-clear controller `led0` a toggle emits the
empty ThemeMode frame, and from the flag-set controller `led0flag` a toggle
emits the `[0]`-payload ThemeMode frame. -/
theorem toggle_state_machine_alternates_witness :
    (led0.toggle).serial.sent
      = led0.serial.sent ++ [⟨MsgType.Led, LedOp.ThemeMode, []⟩] ∧
    (led0flag.toggle).serial.sent
      = led0flag.serial.sent ++ [⟨MsgType.Led, LedOp.ThemeMode, [0]⟩] :=
  ⟨(toggle_state_machine_alternates ⟨[]⟩ [] true led0).2.2.1 rfl,
   (toggle_state_machine_alternates ⟨[]⟩ [] true led0flag).2.2.2 rfl⟩

/-- C9: `next_theme` sends a ConfigCmd frame with payload `[1, 0, 0]`,
`next_animation_speed` with `[0, 1, 0]`, `next_brightness` with
`[0, 0, 1]`; each payload is one-hot and the three are pairwise distinct. -/
theorem config_payloads_one_hot (led : Led) :
    (led.next_theme).serial.sent
      = led.serial.sent ++ [⟨MsgType.Led, LedOp.ConfigCmd, [1, 0, 0]⟩] ∧
    (led.next_animation_speed).serial.sent
      = led.serial.sent ++ [⟨MsgType.Led, LedOp.ConfigCmd, [0, 1, 0]⟩] ∧
    (led.next_brightness).serial.sent
      = led.serial.sent ++ [⟨MsgType.Led, LedOp.ConfigCmd, [0, 0, 1]⟩] ∧
    ([1, 0, 0] : List Nat).countP (fun x => x != 0) = 1 ∧
    ([0, 1, 0] : List Nat).countP (fun x => x != 0) = 1 ∧
    ([0, 0, 1] : List Nat).countP (fun x => x != 0) = 1 ∧
    ([1, 0, 0] : List Nat) ≠ [0, 1, 0] ∧
    ([1, 0, 0] : List Nat) ≠ [0, 0, 1] ∧
    ([0, 1, 0] : List Nat) ≠ [0, 0, 1] :=
  ⟨rfl, rfl, rfl, by decide, by decide, by decide, by decide, by decide, by decide⟩

/-- The mode-independent first 43 bytes of the `bluetooth_mode` payload:
the magic byte, the record count, the first eight full records and the
key-index byte of the connection-status record. -/
def bt_payload_head (ki : KeyIndexCodes) : List Nat :=
  [0xca, 0x0a,
   ki.escape, 0xff, 0xff, 0x00, LedMode.On.toNat,
   ki.n1, 0xff, 0x00, 0x00, LedMode.Flash.toNat,
   ki.n2, 0xff, 0x00, 0x00, LedMode.On.toNat,
   ki.n3, 0xff, 0x00, 0x00, LedMode.On.toNat,
   ki.n4, 0xff, 0x00, 0x00, LedMode.On.toNat,
   ki.equal, 0x00, 0xff, 0x00, LedMode.On.toNat,
   ki.b, 0x00, 0xff, 0x00, LedMode.Flash.toNat,
   ki.minus, 0x00, 0xff, 0x00, LedMode.On.toNat,
   ki.n0]

/-- The mode-independent last 6 bytes of the `bluetooth_mode` payload: the
led-mode byte of the connection-status record and the final full record. -/
def bt_payload_tail (ki : KeyIndexCodes) : List Nat :=
  [LedMode.On.toNat,
   ki.a, 0x00, 0xff, 0x00, LedMode.On.toNat]

/-- C10: `bluetooth_mode` passes to `set_keys` a 52-byte payload starting
with 0xCA and the record count 0x0A, followed by ten five-byte records;
only the three color bytes of the `KeyIndex::N0` record (at offsets 43-45)
depend on the mode — blue for Unknown, green for Ble, yellow for Legacy —
while the surrounding bytes (`bt_payload_head`, `bt_payload_tail`) are
mode-independent by construction. -/
theorem bluetooth_mode_payload_layout
    (ki : KeyIndexCodes) (mode : BluetoothMode) (led : Led) :
    (led.bluetooth_mode ki mode).serial.sent
      = led.serial.sent
        ++ [⟨MsgType.Led, LedOp.SetIndividualKeys, bluetooth_mode_payload ki mode⟩] ∧
    (bluetooth_mode_payload ki mode).length = 52 ∧
    (bluetooth_mode_payload ki mode).take 2 = [0xca, 0x0a] ∧
    bluetooth_mode_payload ki mode
      = bt_payload_head ki
        ++ [(mode_color mode).1, (mode_color mode).2.1, (mode_color mode).2.2]
        ++ bt_payload_tail ki ∧
    (bt_payload_head ki).length = 43 ∧
    (bt_payload_tail ki).length = 6 ∧
    mode_color BluetoothMode.Unknown = (0x00, 0x00, 0xff) ∧
    mode_color BluetoothMode.Ble = (0x00, 0xff, 0x00) ∧
    mode_color BluetoothMode.Legacy = (0xff, 0xff, 0x00) :=
  ⟨rfl, rfl, rfl, rfl, rfl, rfl, rfl, rfl, rfl⟩
